import Mathlib

/-!
Verification of the lifecycle orchestrator in
`tools/wptrunner/wptrunner/environment.py` (the `TestEnvironment` context
manager, the `ProxyLoggingContext` logging bridge, `build_config`,
`test_servers` and `ensure_started`).  Python values and control flow are
shallowly embedded: dicts become association lists, stateful methods become
pure functions over the fields they touch, raising code returns `Except`,
and the straight-line bodies of `__enter__`/`__exit__` become step
sequences that stop at the first raising step (the source contains no
try/finally).  External collaborators that live outside `src/`
(`serve.ConfigBuilder.update`, mozlog's filter/queue machinery,
`LogLevelRewriter`) are modelled from the specification, as flagged in
their doc comments.
-/

set_option maxRecDepth 8192

/-- Values stored in the free-form options mapping handed to
`TestEnvironment.__init__`. -/
inductive OptVal
  | bool (b : Bool)
  | str (s : String)
deriving DecidableEq

/-- The caller-supplied options mapping: a Python dict with string keys,
embedded as an association list with unique keys. -/
abbrev OptionsMap := List (String × OptVal)

/-- First-match lookup in an association list, the embedding of Python dict
indexing (`d[k]` / `d.get(k)`). -/
def listLookup {α : Type} : List (String × α) → String → Option α
  | [], _ => none
  | (k, v) :: rest, key => if k = key then some v else listLookup rest key

/-- Python dict key assignment `d[k] = v`: replace the value in place when the
key exists, otherwise append the new entry. -/
def setKey {α : Type} : List (String × α) → String → α → List (String × α)
  | [], k, v => [(k, v)]
  | (k', v') :: rest, k, v =>
    if k' = k then (k, v) :: rest else (k', v') :: setKey rest k v

/-- Removal of a key from a Python dict (the mutation `d.pop(k)` performs). -/
def eraseKey {α : Type} (m : List (String × α)) (k : String) : List (String × α) :=
  m.filter (fun kv => kv.1 != k)

/-- Python `d.pop(k, default)` (environment.py line 138): returns the stored
value and the mutated dict when the key is present, otherwise the default and
the unchanged dict. -/
def optionsPop (m : OptionsMap) (k : String) (dflt : OptVal) : OptVal × OptionsMap :=
  match listLookup m k with
  | some v => (v, eraseKey m k)
  | none => (dflt, m)

/-- The fields set by `TestEnvironment.__init__` (lines 127-149) that the
claims concern: the popped `test_server_port` flag and the stored options
dict. -/
structure TestEnvironmentState where
  test_server_port : OptVal
  options : OptionsMap
deriving DecidableEq

/-- Embedding of `TestEnvironment.__init__` lines 138-140: it pops
`"test_server_port"` (default `True`) out of the caller's options dict and
stores that same, now mutated, dict as `self.options`. -/
def TestEnvironment.init (options : OptionsMap) : TestEnvironmentState :=
  let p := optionsPop options "test_server_port" (OptVal.bool true)
  { test_server_port := p.1, options := p.2 }

/-- The options argument `__enter__` line 166 passes to every extra
subsystem: `env(self.options, self.config)`. -/
def TestEnvironment.extrasOptionsArg (st : TestEnvironmentState) : OptionsMap :=
  st.options

/-- The options mapping `build_config` consults (lines 224-233): it reads
`self.options`. -/
def TestEnvironment.buildConfigOptionsArg (st : TestEnvironmentState) : OptionsMap :=
  st.options

/-- The fields of the `serve.ConfigBuilder` object that `build_config`
touches. -/
structure ConfigBuilder where
  ports : List (String × List Nat)
  check_subdomains : Bool
  ssl : List (String × OptVal)
  browser_host : Option OptVal
  bind_address : Option OptVal
  server_host : Option OptVal
  doc_root : String
deriving DecidableEq

/-- The parsed on-disk override document `<testsRoot>/config.json`, restricted
to the keys the claims concern: a ports table and an optional
`check_subdomains` key. -/
structure OverrideDoc where
  ports : List (String × List Nat)
  check_subdomains : Option Bool
deriving DecidableEq

/-- Modelled from the spec: `serve.ConfigBuilder.update` lives in
`tools/serve`, which is not under `src/`.  Per the spec an override
document's "keys deep-merge over (replace) the corresponding defaults", so
every override ports key replaces that scheme's entry (and is added when the
scheme is absent), and a present `check_subdomains` key replaces that
field. -/
def configUpdate (c : ConfigBuilder) (o : OverrideDoc) : ConfigBuilder :=
  { c with
    ports := o.ports.foldl (fun acc kv => setKey acc kv.1 kv.2) c.ports,
    check_subdomains := o.check_subdomains.getD c.check_subdomains }

/-- The ports table of the override document, empty when no override file
exists. -/
def overridePorts : Option OverrideDoc → List (String × List Nat)
  | none => []
  | some o => o.ports

/-- Whether the override document itself supplies a `"quic-transport"` ports
key. -/
def overrideAddsQuic (ov : Option OverrideDoc) : Bool :=
  (overridePorts ov).any (fun kv => kv.1 == "quic-transport")

/-- The default port table of `build_config` (lines 205-211). -/
def defaultPorts : List (String × List Nat) :=
  [("http", [8000, 8001]), ("https", [8443, 8444]), ("ws", [8888]),
   ("wss", [8889]), ("h2", [9000])]

/-- Embedding of `TestEnvironment.build_config` (lines 200-236).  `init` is
the freshly constructed `serve.ConfigBuilder` state (its defaults are left
abstract); `override` is the parsed `config.json` when that file exists;
`ssl_config` is the copied `self.ssl_config` dict. -/
def TestEnvironment.build_config (init : ConfigBuilder) (enable_quic : Bool)
    (override : Option OverrideDoc) (options : OptionsMap)
    (ssl_config : List (String × OptVal)) (doc_root : String) : ConfigBuilder :=
  let ports := defaultPorts ++
    (if enable_quic then [("quic-transport", [10000])] else [])
  let c1 := { init with ports := ports }
  let c2 := match override with
    | some o => configUpdate c1 o
    | none => c1
  let c3 := { c2 with check_subdomains := false }
  let c4 := { c3 with
    ssl := setKey ssl_config "encrypt_after_connect"
      ((listLookup options "encrypt_after_connect").getD (OptVal.bool false)) }
  let c5 := match listLookup options "browser_host" with
    | some v => { c4 with browser_host := some v }
    | none => c4
  let c6 := match listLookup options "bind_address" with
    | some v => { c5 with bind_address := some v }
    | none => c5
  { c6 with
    server_host := listLookup options "server_host",
    doc_root := doc_root }

/-- First loop of `test_servers` (lines 302-305): every handle whose
`is_alive()` is false contributes its `(scheme, port)` pair to `failed`.  A
fleet is an association list from scheme to `(port, is_alive)` pairs. -/
def collectFailed : List (String × List (Nat × Bool)) → List (String × Nat)
  | [] => []
  | (scheme, ss) :: rest =>
    ss.filterMap (fun pb => if pb.2 then none else some (scheme, pb.1)) ++
      collectFailed rest

/-- Second loop of `test_servers` (lines 307-320): connection probes, skipping
the `"quic-transport"` scheme; a failed connect contributes `(host, port)` to
`pending`.  `connect host port` abstracts `socket.connect` succeeding within
the 0.1s timeout. -/
def collectPending (host : String) (connect : String → Nat → Bool) :
    List (String × List (Nat × Bool)) → List (String × Nat)
  | [] => []
  | (scheme, ss) :: rest =>
    if scheme = "quic-transport" then collectPending host connect rest
    else
      ss.filterMap (fun pb => if connect host pb.1 then none else some (host, pb.1)) ++
        collectPending host connect rest

/-- The `(host, port)` pairs the second loop of `test_servers` attempts to
connect to, with the same traversal and scheme exemption as
`collectPending`. -/
def collectProbed (host : String) :
    List (String × List (Nat × Bool)) → List (String × Nat)
  | [] => []
  | (scheme, ss) :: rest =>
    if scheme = "quic-transport" then collectProbed host rest
    else ss.map (fun pb => (host, pb.1)) ++ collectProbed host rest

/-- Embedding of `TestEnvironment.test_servers` (lines 298-322): returns the
`(failed, pending)` pair; the probing loop runs only when `failed` is empty
and the `test_server_port` option is set. -/
def test_servers (servers : List (String × List (Nat × Bool)))
    (test_server_port : Bool) (host : String)
    (connect : String → Nat → Bool) : List (String × Nat) × List (String × Nat) :=
  let failed := collectFailed servers
  if failed.isEmpty && test_server_port then
    (failed, collectPending host connect servers)
  else (failed, [])

/-- The connection probes `test_servers` actually performs: none when some
handle is dead or the port check is disabled, because the probing loop at
lines 307-320 is guarded by `if not failed and self.test_server_port`. -/
def test_serversProbed (servers : List (String × List (Nat × Bool)))
    (test_server_port : Bool) (host : String) : List (String × Nat) :=
  let failed := collectFailed servers
  if failed.isEmpty && test_server_port then collectProbed host servers
  else []

/-- The message of the environment error raised at lines 295-296:
the literal heading followed by comma-space-joined `scheme:port` pairs of the
`failed` variable. -/
def serversFailedMessage (failed : List (String × Nat)) : String :=
  "Servers failed to start: " ++
    String.intercalate ", " (failed.map (fun item => item.1 ++ ":" ++ toString item.2))

/-- The polling loop of `ensure_started` (lines 283-296), with time
discretised: the 0.5-unit sleeps partition the 30-unit budget into 60 polls.
`poll i` is what `self.test_servers()` returns at the i-th iteration (the
fleet's state may change between polls); `lastFailed` is the Python variable
`failed` left over from the previous iteration, which the raise at line 295
formats when the loop exits because the budget elapsed. -/
def ensureStartedGo (poll : Nat → List (String × Nat) × List (String × Nat)) :
    Nat → Nat → List (String × Nat) → Except String Unit
  | _, 0, lastFailed => Except.error (serversFailedMessage lastFailed)
  | i, fuel + 1, _ =>
    let p := poll i
    if p.1.isEmpty then
      if p.2.isEmpty then Except.ok ()
      else ensureStartedGo poll (i + 1) fuel p.1
    else Except.error (serversFailedMessage p.1)

/-- Embedding of `TestEnvironment.ensure_started` (lines 283-296). -/
def ensure_started (poll : Nat → List (String × Nat) × List (String × Nat)) :
    Except String Unit :=
  ensureStartedGo poll 0 60 []

/-- The six resources `__enter__` acquires and `__exit__` releases. -/
inductive Resource
  | logging
  | config
  | stash
  | cacheManager
  | extras
  | servers
deriving DecidableEq

/-- Acquisition order of `__enter__` (lines 151-172): logging proxy (152),
config scope (153-155), stash (157), cache manager (158), extra subsystems
(165-168), server fleet (170-172). -/
def enterSteps : List Resource :=
  [Resource.logging, Resource.config, Resource.stash, Resource.cacheManager,
   Resource.extras, Resource.servers]

/-- Release order of `__exit__` (lines 178-192): fleet handles (181-183),
extra subsystems (184-185), cache manager (189), stash (190), config scope
(191), logging proxy (192). -/
def exitSteps : List Resource :=
  [Resource.servers, Resource.extras, Resource.cacheManager, Resource.stash,
   Resource.config, Resource.logging]

/-- Runs a sequence of steps the way a straight-line Python method body does:
a step that raises stops execution right there, because neither `__enter__`
nor `__exit__` contains any try/finally.  Returns the steps that completed
without raising and the step that raised, if any. -/
def runSeq (fails : Resource → Bool) : List Resource → List Resource × Option Resource
  | [] => ([], none)
  | s :: rest =>
    if fails s then ([], some s)
    else
      let r := runSeq fails rest
      (s :: r.1, r.2)

/-- The acquisition steps of `__enter__` when acquiring each resource either
succeeds or raises according to `fails`. -/
def runEnter (fails : Resource → Bool) : List Resource × Option Resource :=
  runSeq fails enterSteps

/-- The release steps of `__exit__` when releasing each resource either
succeeds or raises according to `raises`. -/
def runExit (raises : Resource → Bool) : List Resource × Option Resource :=
  runSeq raises exitSteps

/-- Resource events observable during `__enter__`. -/
inductive EnterEvent
  | acquire (s : Resource)
  | release (s : Resource)
deriving DecidableEq

/-- The trace of resource events `__enter__` (lines 151-176) performs when
each acquisition succeeds or raises per `fails`: only acquisition events ever
appear, because the body of `__enter__` contains no release or teardown call
on any path and a raise propagates out of the method at once (and Python's
`with` statement does not run `__exit__` when `__enter__` raises). -/
def enterTrace (fails : Resource → Bool) : List EnterEvent × Option Resource :=
  ((runEnter fails).1.map EnterEvent.acquire, (runEnter fails).2)

/-- The nesting guard of `__enter__` (lines 160-163): it asserts
`self.env_extras_cms is None` and then sets the field to `[]`.  The argument
is the one field of the one instance the assert reads. -/
def nestingCheck (env_extras_cms : Option (List Unit)) :
    Except String (Option (List Unit)) :=
  if env_extras_cms.isSome then
    Except.error "A TestEnvironment object cannot be nested"
  else Except.ok (some [])

/-- Whether any `TestEnvironment` instance in the process has an active
scope, given the `env_extras_cms` field of every instance. -/
def anyScopeActive (instances : List (Option (List Unit))) : Bool :=
  instances.any Option.isSome

/-- Severities of mozlog records. -/
inductive LogLevel
  | debug
  | info
  | warning
  | error
  | critical
deriving DecidableEq

/-- Numeric ordering of severities, increasing with importance. -/
def levelNum : LogLevel → Nat
  | LogLevel.debug => 0
  | LogLevel.info => 1
  | LogLevel.warning => 2
  | LogLevel.error => 3
  | LogLevel.critical => 4

/-- A structured log record as far as the claims are concerned: a severity
and a message. -/
structure LogRecord where
  level : LogLevel
  message : String
deriving DecidableEq

/-- Modelled from the spec: `LogLevelRewriter` is defined in
`wptrunner/wptlogging.py`, which is not under `src/`; per the spec it
"rewrites error severity down to warning" before handing the record to the
wrapped filter (line 106 wraps the level filter in the rewriter). -/
def logLevelRewriter (r : LogRecord) : LogRecord :=
  if r.level = LogLevel.error then { r with level := LogLevel.warning } else r

/-- Modelled from the spec: mozlog's `LogLevelFilter` (an external
collaborator, line 104) "only admits info-and-above records". -/
def logLevelFilter (r : LogRecord) : Option LogRecord :=
  if levelNum LogLevel.info ≤ levelNum r.level then some r else none

/-- The component filter installed by `ProxyLoggingContext.__init__`
(lines 104-107): the error-to-warning rewriter wrapping the
info-and-above filter. -/
def componentFilter (r : LogRecord) : Option LogRecord :=
  logLevelFilter (logLevelRewriter r)

/-- Modelled from the spec: the queue consumer (`proxy.LogQueueThread`, an
external collaborator, line 111) "reads records until the sentinel arrives,
forwarding each to the structured logger", which applies `componentFilter`.
`none` is the sentinel that `__exit__` enqueues (line 119).  Returns the
records the structured logger delivers, in order. -/
def deliver : List (Option LogRecord) → List LogRecord
  | [] => []
  | none :: _ => []
  | some r :: rest =>
    match componentFilter r with
    | some r2 => r2 :: deliver rest
    | none => deliver rest

/-- A poll sequence in which every server is alive but one port never accepts
connections: every poll returns no failed pair and one pending pair. -/
def pollAllPending (_i : Nat) : List (String × Nat) × List (String × Nat) :=
  ([], [("web-platform.test", 8000)])

/-- A poll sequence whose first poll reports one pending port and whose
second poll reports the https handle dead. -/
def pollHttpsDead (i : Nat) : List (String × Nat) × List (String × Nat) :=
  if i = 0 then ([], [("web-platform.test", 8443)]) else ([("https", 8443)], [])

/-- A release-failure pattern in which only the extras release step raises. -/
def extrasRaises (s : Resource) : Bool := s == Resource.extras

/-- An acquisition-failure pattern in which only the server-fleet start
raises. -/
def fleetStartFails (s : Resource) : Bool := s == Resource.servers

/-- A concrete fleet whose http server is alive and whose https server is
dead. -/
def serversHttpsDead : List (String × List (Nat × Bool)) :=
  [("http", [(8000, true)]), ("https", [(8443, false)])]

/-- The queue of the spec's logging scenario: info, error and debug records
followed by the sentinel. -/
def demoQueue : List (Option LogRecord) :=
  [some { level := LogLevel.info, message := "a" },
   some { level := LogLevel.error, message := "b" },
   some { level := LogLevel.debug, message := "c" },
   none]

/-- A concrete freshly constructed `ConfigBuilder` state. -/
def cfgInit0 : ConfigBuilder :=
  { ports := [], check_subdomains := true, ssl := [], browser_host := none,
    bind_address := none, server_host := none, doc_root := "" }

/-- An override document whose ports table supplies a `"quic-transport"`
key. -/
def quicOverride : OverrideDoc :=
  { ports := [("quic-transport", [10000])], check_subdomains := none }

/-- A concrete caller options mapping holding a `test_server_port` key and
one other key. -/
def sampleOptions : OptionsMap :=
  [("test_server_port", OptVal.bool false),
   ("browser_host", OptVal.str "example.test")]

/-! ## Helper lemmas -/

theorem listLookup_setKey {α : Type} (m : List (String × α)) (kn : String)
    (v : α) (kq : String) :
    listLookup (setKey m kn v) kq = if kn = kq then some v else listLookup m kq := by
  induction m with
  | nil => simp [setKey, listLookup]
  | cons head tail ih =>
    obtain ⟨k', v'⟩ := head
    by_cases h1 : k' = kn
    · subst h1
      by_cases h2 : k' = kq <;> simp [setKey, listLookup, h2]
    · by_cases h2 : k' = kq
      · subst h2
        have hn : ¬ kn = k' := fun h => h1 h.symm
        simp [setKey, listLookup, h1, hn]
      · simp [setKey, listLookup, h1, h2, ih]

theorem isSome_foldl_setKey (over : List (String × List Nat))
    (base : List (String × List Nat)) (k : String) :
    (listLookup (over.foldl (fun acc kv => setKey acc kv.1 kv.2) base) k).isSome =
      ((listLookup base k).isSome || over.any (fun kv => kv.1 == k)) := by
  induction over generalizing base with
  | nil => simp
  | cons kv rest ih =>
    obtain ⟨k0, v0⟩ := kv
    simp only [List.foldl_cons, List.any_cons]
    rw [ih, listLookup_setKey]
    by_cases h : k0 = k
    · simp [h]
    · have hb : (k0 == k) = false := by simp [h]
      simp [h, hb]

theorem listLookup_eraseKey_self {α : Type} (m : List (String × α)) (k : String) :
    listLookup (eraseKey m k) k = none := by
  induction m with
  | nil => rfl
  | cons head tail ih =>
    obtain ⟨k', v'⟩ := head
    by_cases h : k' = k
    · simpa [eraseKey, List.filter_cons, h] using ih
    · simpa [eraseKey, List.filter_cons, h, listLookup] using ih

theorem listLookup_eraseKey_ne {α : Type} (m : List (String × α)) (k kq : String)
    (h : kq ≠ k) : listLookup (eraseKey m k) kq = listLookup m kq := by
  induction m with
  | nil => rfl
  | cons head tail ih =>
    obtain ⟨k', v'⟩ := head
    by_cases h1 : k' = k
    · subst h1
      have h2 : ¬ k' = kq := by
        intro hq
        rw [← hq] at h
        exact h rfl
      simp only [eraseKey, List.filter_cons, bne_self_eq_false, Bool.false_eq_true,
        if_false, listLookup, if_neg h2]
      exact ih
    · have hb : (k' != k) = true := by simp [h1]
      by_cases h2 : k' = kq
      · subst h2
        simp [eraseKey, List.filter_cons, hb, listLookup]
      · simp only [eraseKey, List.filter_cons, hb, if_true, listLookup, if_neg h2]
        exact ih

theorem build_config_ports (init : ConfigBuilder) (enable_quic : Bool)
    (override : Option OverrideDoc) (options : OptionsMap)
    (ssl_config : List (String × OptVal)) (doc_root : String) :
    (TestEnvironment.build_config init enable_quic override options ssl_config
        doc_root).ports =
      (overridePorts override).foldl (fun acc kv => setKey acc kv.1 kv.2)
        (defaultPorts ++ (if enable_quic then [("quic-transport", [10000])] else [])) := by
  cases override <;>
    cases h1 : listLookup options "browser_host" <;>
      cases h2 : listLookup options "bind_address" <;>
        simp [TestEnvironment.build_config, configUpdate, overridePorts, h1, h2]

theorem baselineLookups (q : Bool) :
    (listLookup (defaultPorts ++ (if q then [("quic-transport", [10000])] else []))
        "http").isSome = true ∧
    (listLookup (defaultPorts ++ (if q then [("quic-transport", [10000])] else []))
        "https").isSome = true ∧
    (listLookup (defaultPorts ++ (if q then [("quic-transport", [10000])] else []))
        "ws").isSome = true ∧
    (listLookup (defaultPorts ++ (if q then [("quic-transport", [10000])] else []))
        "wss").isSome = true ∧
    (listLookup (defaultPorts ++ (if q then [("quic-transport", [10000])] else []))
        "h2").isSome = true ∧
    (listLookup (defaultPorts ++ (if q then [("quic-transport", [10000])] else []))
        "quic-transport").isSome = q := by
  cases q <;> decide

/-! ## Claim C9 -/

/-- C9: for every option bag and override document the assembled configuration
has `check_subdomains = false`; in particular an override document supplying a
`check_subdomains` key cannot change this, because the unconditional
assignment at line 221 happens after the override merge at line 219. -/
theorem C9_check_subdomains_false (init : ConfigBuilder) (enable_quic : Bool)
    (override : Option OverrideDoc) (options : OptionsMap)
    (ssl_config : List (String × OptVal)) (doc_root : String) :
    (TestEnvironment.build_config init enable_quic override options ssl_config
        doc_root).check_subdomains = false := by
  cases override <;>
    cases h1 : listLookup options "browser_host" <;>
      cases h2 : listLookup options "bind_address" <;>
        simp [TestEnvironment.build_config, configUpdate, h1, h2]

/-! ## Claim C6 -/

/-- C6 counterexample: with the quic toggle off, an override document whose
ports table supplies a `"quic-transport"` key still makes the assembled ports
mapping contain that entry, refuting the claimed equivalence between entry
presence and the toggle being true. -/
theorem C6_counterexample :
    (listLookup (TestEnvironment.build_config cfgInit0 false (some quicOverride)
        [] [] "doc").ports "quic-transport").isSome = true ∧
    ¬ (((listLookup (TestEnvironment.build_config cfgInit0 false (some quicOverride)
        [] [] "doc").ports "quic-transport").isSome = true) ↔ (false = true)) := by
  constructor
  · decide
  · decide

/-- C6 (amended): for every option bag and override document the assembled
ports mapping contains entries for the five baseline schemes http, https, ws,
wss and h2 (starting from the default table), and it contains the
`"quic-transport"` entry exactly when the quic toggle is true or the override
document itself supplies such a key. -/
theorem C6_ports_amended (init : ConfigBuilder) (enable_quic : Bool)
    (override : Option OverrideDoc) (options : OptionsMap)
    (ssl_config : List (String × OptVal)) (doc_root : String) :
    ((listLookup (TestEnvironment.build_config init enable_quic override options
        ssl_config doc_root).ports "http").isSome = true ∧
     (listLookup (TestEnvironment.build_config init enable_quic override options
        ssl_config doc_root).ports "https").isSome = true ∧
     (listLookup (TestEnvironment.build_config init enable_quic override options
        ssl_config doc_root).ports "ws").isSome = true ∧
     (listLookup (TestEnvironment.build_config init enable_quic override options
        ssl_config doc_root).ports "wss").isSome = true ∧
     (listLookup (TestEnvironment.build_config init enable_quic override options
        ssl_config doc_root).ports "h2").isSome = true) ∧
    (listLookup (TestEnvironment.build_config init enable_quic override options
        ssl_config doc_root).ports "quic-transport").isSome =
      (enable_quic || overrideAddsQuic override) := by
  have hp := build_config_ports init enable_quic override options ssl_config doc_root
  have hb := baselineLookups enable_quic
  refine ⟨⟨?_, ?_, ?_, ?_, ?_⟩, ?_⟩ <;> rw [hp, isSome_foldl_setKey]
  · simp [hb.1]
  · simp [hb.2.1]
  · simp [hb.2.2.1]
  · simp [hb.2.2.2.1]
  · simp [hb.2.2.2.2.1]
  · rw [hb.2.2.2.2.2, overrideAddsQuic]

/-! ## Claim C10 -/

/-- C10: constructing the `TestEnvironment` destructively removes the key
`"test_server_port"` from the caller-supplied options mapping (taking the
value `True` when the key is absent) and leaves every other key unchanged;
the same mutated mapping is the one later passed to each extra subsystem and
consulted by `build_config`. -/
theorem C10_init_pops_test_server_port (options : OptionsMap) (k : String)
    (hk : k ≠ "test_server_port") :
    (TestEnvironment.init options).test_server_port =
      (listLookup options "test_server_port").getD (OptVal.bool true) ∧
    listLookup (TestEnvironment.init options).options "test_server_port" = none ∧
    listLookup (TestEnvironment.init options).options k = listLookup options k ∧
    TestEnvironment.extrasOptionsArg (TestEnvironment.init options) =
      (TestEnvironment.init options).options ∧
    TestEnvironment.buildConfigOptionsArg (TestEnvironment.init options) =
      (TestEnvironment.init options).options := by
  cases hl : listLookup options "test_server_port" with
  | some v =>
    refine ⟨?_, ?_, ?_, rfl, rfl⟩ <;>
      simp [TestEnvironment.init, optionsPop, hl, listLookup_eraseKey_self,
        listLookup_eraseKey_ne _ _ _ hk]
  | none =>
    refine ⟨?_, ?_, ?_, rfl, rfl⟩ <;>
      simp [TestEnvironment.init, optionsPop, hl]

/-- C10 witness: the theorem applied to a concrete options mapping and the
concrete other key. -/
theorem C10_witness :
    listLookup (TestEnvironment.init sampleOptions).options "browser_host" =
      listLookup sampleOptions "browser_host" :=
  (C10_init_pops_test_server_port sampleOptions "browser_host" (by decide)).2.2.1

/-! ## Claim C4 -/

/-- C4 counterexample: a process state in which one `TestEnvironment`
instance has an active scope while a second, different instance does not;
entering the second instance passes the nesting assert instead of raising,
so the guard is not process-wide. -/
theorem C4_counterexample :
    anyScopeActive [some [], none] = true ∧
    nestingCheck none = Except.ok (some []) ∧
    nestingCheck none ≠
      Except.error "A TestEnvironment object cannot be nested" := by
  refine ⟨rfl, rfl, ?_⟩
  intro h
  cases h

/-- C4 (amended): the nesting guard is per instance: entering a
`TestEnvironment` whose own `env_extras_cms` field records an active scope
raises the nesting-contract violation, regardless of option bag contents;
a different instance's active scope does not prevent entry. -/
theorem C4_nesting_amended (env_extras_cms : Option (List Unit))
    (h : env_extras_cms.isSome = true) :
    nestingCheck env_extras_cms =
      Except.error "A TestEnvironment object cannot be nested" := by
  simp [nestingCheck, h]

/-- C4 witness: the amended theorem applied to an instance with an active
scope. -/
theorem C4_witness :
    nestingCheck (some []) =
      Except.error "A TestEnvironment object cannot be nested" :=
  C4_nesting_amended (some []) rfl

/-! ## Claim C8 -/

/-- C8 counterexample: the acquisition order of `__enter__` is not the
claimed one — the stash (line 157) is started before the cache manager
(line 158), not after it. -/
theorem C8_counterexample :
    (runEnter (fun _ => false)).1 ≠
      [Resource.logging, Resource.config, Resource.cacheManager, Resource.stash,
       Resource.extras, Resource.servers] ∧
    (runEnter (fun _ => false)).1 =
      [Resource.logging, Resource.config, Resource.stash, Resource.cacheManager,
       Resource.extras, Resource.servers] := by
  constructor
  · decide
  · decide

/-- C8 (amended): `__enter__` acquires in the order logging proxy,
configuration, stash, cache manager, extras, server fleet, and `__exit__`
releases every resource in the exact reverse of that order. -/
theorem C8_reverse_order_amended :
    (runEnter (fun _ => false)).1 =
      [Resource.logging, Resource.config, Resource.stash, Resource.cacheManager,
       Resource.extras, Resource.servers] ∧
    (runExit (fun _ => false)).1 = ((runEnter (fun _ => false)).1).reverse := by
  constructor
  · decide
  · decide

theorem runSeq_eq (fails : Resource → Bool) (steps : List Resource) :
    runSeq fails steps =
      (steps.takeWhile (fun s => !fails s),
       (steps.dropWhile (fun s => !fails s)).head?) := by
  induction steps with
  | nil => simp [runSeq, List.takeWhile, List.dropWhile]
  | cons s rest ih =>
    cases h : fails s with
    | true => simp [runSeq, h, List.takeWhile_cons, List.dropWhile_cons]
    | false => simp [runSeq, h, List.takeWhile_cons, List.dropWhile_cons, ih]

theorem head_dropWhile_false {α : Type} (p : α → Bool) :
    ∀ (l : List α) (x : α), (l.dropWhile p).head? = some x → p x = false := by
  intro l
  induction l with
  | nil =>
    intro x h
    simp [List.dropWhile] at h
  | cons a t ih =>
    intro x h
    cases hp : p a with
    | true =>
      rw [List.dropWhile_cons, hp] at h
      exact ih x (by simpa using h)
    | false =>
      rw [List.dropWhile_cons, hp] at h
      simp at h
      rw [← h]
      exact hp

/-! ## Claim C2 -/

/-- C2 counterexample: a teardown in which the extras release step raises:
only the fleet termination completes; the cache manager, stash, config scope
and logging proxy releases never execute, refuting the claim that every
release step runs even when an earlier one raised. -/
theorem C2_counterexample :
    runExit extrasRaises = ([Resource.servers], some Resource.extras) ∧
    Resource.cacheManager ∉ (runExit extrasRaises).1 ∧
    Resource.stash ∉ (runExit extrasRaises).1 ∧
    Resource.config ∉ (runExit extrasRaises).1 ∧
    Resource.logging ∉ (runExit extrasRaises).1 := by
  refine ⟨?_, ?_, ?_, ?_, ?_⟩ <;> decide

/-- C2 (amended): `__exit__` runs its release steps in the fixed order fleet,
extras, cache manager, stash, config, logging, but without any guaranteed
cleanup: when a release step raises, that error propagates immediately and
the steps that complete are exactly the ones before the first raising step;
the remaining release steps are skipped. -/
theorem C2_exit_amended (raises : Resource → Bool) (s : Resource)
    (h : (runExit raises).2 = some s) :
    raises s = true ∧
    (runExit raises).1 = exitSteps.takeWhile (fun x => !raises x) := by
  constructor
  · have h2 : ((exitSteps.dropWhile (fun x => !raises x)).head?) = some s := by
      rw [runExit, runSeq_eq] at h
      exact h
    have h3 := head_dropWhile_false (fun x => !raises x) exitSteps s h2
    simpa using h3
  · rw [runExit, runSeq_eq]

/-- C2 witness: the amended theorem applied to the pattern in which exactly
the extras release raises. -/
theorem C2_witness :
    extrasRaises Resource.extras = true ∧
    (runExit extrasRaises).1 = exitSteps.takeWhile (fun x => !extrasRaises x) :=
  C2_exit_amended extrasRaises Resource.extras (by decide)

/-! ## Claim C3 -/

/-- C3 counterexample: when the server-fleet start (the last acquisition of
`__enter__`) raises, the failure propagates while the logging proxy, config
scope, stash, cache manager and extras have been acquired and no release
event has occurred — the partial environment is left running, refuting the
claim that teardown runs for every already-started resource. -/
theorem C3_counterexample :
    (enterTrace fleetStartFails).2 = some Resource.servers ∧
    EnterEvent.acquire Resource.stash ∈ (enterTrace fleetStartFails).1 ∧
    EnterEvent.acquire Resource.logging ∈ (enterTrace fleetStartFails).1 ∧
    EnterEvent.release Resource.stash ∉ (enterTrace fleetStartFails).1 ∧
    EnterEvent.release Resource.logging ∉ (enterTrace fleetStartFails).1 ∧
    EnterEvent.release Resource.cacheManager ∉ (enterTrace fleetStartFails).1 := by
  refine ⟨?_, ?_, ?_, ?_, ?_, ?_⟩ <;> decide

/-- C3 (amended): if `enter()` fails partway, no teardown runs at all: the
step that raised is a genuinely failing acquisition, everything acquired is
exactly the prefix of acquisitions before the first failing step, and the
trace of `__enter__` contains no release event, so the already-started
resources are still held when the failure propagates to the caller. -/
theorem C3_enter_amended (fails : Resource → Bool) (s : Resource)
    (h : (enterTrace fails).2 = some s) :
    fails s = true ∧
    (enterTrace fails).1 =
      (enterSteps.takeWhile (fun x => !fails x)).map EnterEvent.acquire ∧
    ∀ e ∈ (enterTrace fails).1, ∀ x, e ≠ EnterEvent.release x := by
  refine ⟨?_, ?_, ?_⟩
  · have h2 : ((enterSteps.dropWhile (fun x => !fails x)).head?) = some s := by
      rw [enterTrace, runEnter, runSeq_eq] at h
      exact h
    have h3 := head_dropWhile_false (fun x => !fails x) enterSteps s h2
    simpa using h3
  · rw [enterTrace, runEnter, runSeq_eq]
  · intro e he x
    rw [enterTrace] at he
    simp only [List.mem_map] at he
    obtain ⟨s', _, rfl⟩ := he
    intro hcon
    cases hcon

/-- C3 witness: the amended theorem applied to the pattern in which exactly
the fleet start raises. -/
theorem C3_witness :
    fleetStartFails Resource.servers = true ∧
    (enterTrace fleetStartFails).1 =
      (enterSteps.takeWhile (fun x => !fleetStartFails x)).map EnterEvent.acquire ∧
    ∀ e ∈ (enterTrace fleetStartFails).1, ∀ x, e ≠ EnterEvent.release x :=
  C3_enter_amended fleetStartFails Resource.servers (by decide)

theorem mem_collectFailed (servers : List (String × List (Nat × Bool)))
    (scheme : String) (ss : List (Nat × Bool)) (port : Nat)
    (h1 : (scheme, ss) ∈ servers) (h2 : (port, false) ∈ ss) :
    (scheme, port) ∈ collectFailed servers := by
  induction servers with
  | nil => cases h1
  | cons head rest ih =>
    obtain ⟨sch, l⟩ := head
    rcases List.mem_cons.mp h1 with heq | htail
    · have hs : scheme = sch := congrArg Prod.fst heq
      have hl : ss = l := congrArg Prod.snd heq
      subst hs
      subst hl
      simp only [collectFailed]
      apply List.mem_append_left
      rw [List.mem_filterMap]
      exact ⟨(port, false), h2, rfl⟩
    · simp only [collectFailed]
      exact List.mem_append_right _ (ih htail)

/-! ## Claim C5 -/

/-- C5: for every fleet, if some handle reports not-alive then the
`(scheme, port)` pair of that handle is in the returned failed set, the
returned pending set is empty, and no connection probe is attempted on any
port. -/
theorem C5_test_servers_fail_fast (servers : List (String × List (Nat × Bool)))
    (scheme : String) (ss : List (Nat × Bool)) (port : Nat)
    (test_server_port : Bool) (host : String) (connect : String → Nat → Bool)
    (h1 : (scheme, ss) ∈ servers) (h2 : (port, false) ∈ ss) :
    (scheme, port) ∈ (test_servers servers test_server_port host connect).1 ∧
    (test_servers servers test_server_port host connect).2 = [] ∧
    test_serversProbed servers test_server_port host = [] := by
  have hmem := mem_collectFailed servers scheme ss port h1 h2
  have hne : (collectFailed servers).isEmpty = false := by
    cases hcf : collectFailed servers with
    | nil =>
      rw [hcf] at hmem
      cases hmem
    | cons a l => rfl
  refine ⟨?_, ?_, ?_⟩ <;>
    simp [test_servers, test_serversProbed, hne, hmem]

/-- C5 witness: the theorem applied to a concrete fleet with a dead https
handle and a live http one. -/
theorem C5_witness :
    ("https", 8443) ∈ (test_servers serversHttpsDead true "web-platform.test"
      (fun _ _ => true)).1 ∧
    (test_servers serversHttpsDead true "web-platform.test"
      (fun _ _ => true)).2 = [] ∧
    test_serversProbed serversHttpsDead true "web-platform.test" = [] :=
  C5_test_servers_fail_fast serversHttpsDead "https" [(8443, false)] 8443 true
    "web-platform.test" (fun _ _ => true) (by decide) (by decide)

theorem componentFilter_sound (r r2 : LogRecord)
    (h : componentFilter r = some r2) :
    levelNum LogLevel.info ≤ levelNum r2.level ∧ r2.level ≠ LogLevel.error := by
  obtain ⟨lv, msg⟩ := r
  cases lv <;>
    simp only [componentFilter, logLevelRewriter, logLevelFilter, levelNum] at h <;>
    simp_all [levelNum] <;>
    subst h <;>
    simp [levelNum]

theorem deliver_levels (q : List (Option LogRecord)) (r : LogRecord)
    (h : r ∈ deliver q) :
    levelNum LogLevel.info ≤ levelNum r.level ∧ r.level ≠ LogLevel.error := by
  induction q with
  | nil => cases h
  | cons item rest ih =>
    cases item with
    | none => cases h
    | some rec0 =>
      rw [deliver] at h
      cases hf : componentFilter rec0 with
      | none =>
        rw [hf] at h
        exact ih h
      | some r2 =>
        rw [hf] at h
        rcases List.mem_cons.mp h with heq | htail
        · subst heq
          exact componentFilter_sound rec0 r hf
        · exact ih htail

/-! ## Claim C7 -/

/-- C7: records below info severity are never delivered to the structured
logger, no record is delivered with error severity (errors are rewritten to
warning), and the queue info, error, debug followed by the sentinel yields
exactly the info record and then a warning rewritten from the error, in that
order. -/
theorem C7_proxy_filter (q : List (Option LogRecord)) (r : LogRecord)
    (h : r ∈ deliver q) :
    (levelNum LogLevel.info ≤ levelNum r.level ∧ r.level ≠ LogLevel.error) ∧
    deliver demoQueue =
      [{ level := LogLevel.info, message := "a" },
       { level := LogLevel.warning, message := "b" }] := by
  refine ⟨deliver_levels q r h, ?_⟩
  decide

/-- C7 witness: the theorem applied to the concrete demo queue and its first
delivered record. -/
theorem C7_witness :
    ({ level := LogLevel.info, message := "a" } : LogRecord) ∈ deliver demoQueue ∧
    ((levelNum LogLevel.info ≤
        levelNum ({ level := LogLevel.info, message := "a" } : LogRecord).level ∧
      ({ level := LogLevel.info, message := "a" } : LogRecord).level ≠
        LogLevel.error) ∧
     deliver demoQueue =
      [{ level := LogLevel.info, message := "a" },
       { level := LogLevel.warning, message := "b" }]) :=
  ⟨by decide,
   C7_proxy_filter demoQueue { level := LogLevel.info, message := "a" } (by decide)⟩

theorem ensureStartedGo_step
    (poll : Nat → List (String × Nat) × List (String × Nat)) (i fuel : Nat)
    (lf : List (String × Nat)) (h1 : (poll i).1 = []) (h2 : (poll i).2 ≠ []) :
    ensureStartedGo poll i (fuel + 1) lf = ensureStartedGo poll (i + 1) fuel [] := by
  have e1 : (poll i).1.isEmpty = true := by rw [h1]; rfl
  have e2 : (poll i).2.isEmpty = false := by
    cases hp : (poll i).2 with
    | nil => exact absurd hp h2
    | cons a l => rfl
  simp only [ensureStartedGo, e1, e2]
  simp [h1]

theorem ensureStartedGo_abort
    (poll : Nat → List (String × Nat) × List (String × Nat)) (i fuel : Nat)
    (lf : List (String × Nat)) (h1 : (poll i).1 ≠ []) :
    ensureStartedGo poll i (fuel + 1) lf =
      Except.error (serversFailedMessage (poll i).1) := by
  have e1 : (poll i).1.isEmpty = false := by
    cases hp : (poll i).1 with
    | nil => exact absurd hp h1
    | cons a l => rfl
  simp only [ensureStartedGo, e1]
  simp

theorem ensureStartedGo_done
    (poll : Nat → List (String × Nat) × List (String × Nat)) (i fuel : Nat)
    (lf : List (String × Nat)) (h1 : (poll i).1 = []) (h2 : (poll i).2 = []) :
    ensureStartedGo poll i (fuel + 1) lf = Except.ok () := by
  have e1 : (poll i).1.isEmpty = true := by rw [h1]; rfl
  have e2 : (poll i).2.isEmpty = true := by rw [h2]; rfl
  simp only [ensureStartedGo, e1, e2]
  simp

theorem ensureStartedGo_all_pending
    (poll : Nat → List (String × Nat) × List (String × Nat)) :
    ∀ (fuel i : Nat),
      (∀ j, j < fuel → (poll (i + j)).1 = [] ∧ (poll (i + j)).2 ≠ []) →
      ensureStartedGo poll i fuel [] =
        Except.error (serversFailedMessage []) := by
  intro fuel
  induction fuel with
  | zero => intro i _; rfl
  | succ f ih =>
    intro i hall
    have h0 := hall 0 (Nat.succ_pos f)
    rw [Nat.add_zero] at h0
    rw [ensureStartedGo_step poll i f [] h0.1 h0.2]
    apply ih
    intro j hj
    have := hall (j + 1) (Nat.succ_lt_succ hj)
    rwa [show i + (j + 1) = i + 1 + j by omega] at this

theorem ensureStartedGo_skip
    (poll : Nat → List (String × Nat) × List (String × Nat)) :
    ∀ (k i fuel : Nat), k ≤ fuel →
      (∀ j, j < k → (poll (i + j)).1 = [] ∧ (poll (i + j)).2 ≠ []) →
      ensureStartedGo poll i fuel [] =
        ensureStartedGo poll (i + k) (fuel - k) [] := by
  intro k
  induction k with
  | zero => intro i fuel _ _; simp
  | succ kk ih =>
    intro i fuel hle hall
    obtain ⟨f, rfl⟩ : ∃ f, fuel = f + 1 := ⟨fuel - 1, by omega⟩
    have h0 := hall 0 (Nat.succ_pos kk)
    rw [Nat.add_zero] at h0
    rw [ensureStartedGo_step poll i f [] h0.1 h0.2]
    rw [ih (i + 1) f (by omega) ?_]
    · rw [show i + 1 + kk = i + (kk + 1) by omega,
        show f - kk = f + 1 - (kk + 1) by omega]
    · intro j hj
      have := hall (j + 1) (Nat.succ_lt_succ hj)
      rwa [show i + (j + 1) = i + 1 + j by omega] at this

/-! ## Claim C1 -/

/-- C1 counterexample: a run in which every poll reports all servers alive
but one port never accepting connections: after the budget elapses the raise
formats the (empty) `failed` list, so the message is exactly the bare heading
and not the claimed enumeration of the still-pending entries. -/
theorem C1_counterexample :
    ensure_started pollAllPending = Except.error "Servers failed to start: " ∧
    "Servers failed to start: " ≠
      "Servers failed to start: web-platform.test:8000" :=
  ⟨rfl, by decide⟩

/-- C1 (amended): `ensure_started` raises exactly when some poll returns a
non-empty failed set (aborting immediately at that poll, without further
polling) or the 60-poll budget elapses with only pending entries; the error
message is the heading followed by the comma-space-joined failed pairs of the
aborting poll in the first case, while in the timeout case the formatted
`failed` list is empty, so the message is exactly the bare heading. -/
theorem C1_ensure_started_amended
    (poll : Nat → List (String × Nat) × List (String × Nat))
    (k : Nat) (hk : k < 60)
    (hbefore : ∀ j, j < k → (poll j).1 = [] ∧ (poll j).2 ≠ []) :
    ((poll k).1 ≠ [] →
      ensure_started poll = Except.error (serversFailedMessage (poll k).1)) ∧
    ((poll k).1 = [] → (poll k).2 = [] →
      ensure_started poll = Except.ok ()) ∧
    ((∀ j, j < 60 → (poll j).1 = [] ∧ (poll j).2 ≠ []) →
      ensure_started poll = Except.error "Servers failed to start: ") := by
  have hskip := ensureStartedGo_skip poll k 0 60 (by omega)
    (by intro j hj; rw [Nat.zero_add]; exact hbefore j hj)
  rw [Nat.zero_add] at hskip
  obtain ⟨m, hm⟩ : ∃ m, 60 - k = m + 1 := ⟨60 - k - 1, by omega⟩
  refine ⟨?_, ?_, ?_⟩
  · intro hne
    rw [ensure_started, hskip, hm, ensureStartedGo_abort poll k m [] hne]
  · intro h1 h2
    rw [ensure_started, hskip, hm, ensureStartedGo_done poll k m [] h1 h2]
  · intro hall
    rw [ensure_started, ensureStartedGo_all_pending poll 60 0
      (by intro j hj; rw [Nat.zero_add]; exact hall j hj)]
    rfl

/-- C1 witness: the amended theorem applied to a poll sequence whose second
poll reports the https handle dead: the run aborts at that poll with the
message enumerating the failed pair. -/
theorem C1_witness :
    (pollHttpsDead 1).1 ≠ [] ∧
    ensure_started pollHttpsDead =
      Except.error "Servers failed to start: https:8443" :=
  ⟨by decide,
   (C1_ensure_started_amended pollHttpsDead 1 (by omega)
     (fun j hj => by
       have hj0 : j = 0 := by omega
       subst hj0
       exact ⟨rfl, by decide⟩)).1 (by decide)⟩
